import Mathlib

/-!
Verification of `src/aws/lamdba/control-resource.py`: a serverless handler
that starts, stops, or reports the status of tagged EC2 instances and
Auto Scaling Groups.  The Python program is embedded shallowly: Python
values appearing in the request are modelled by `PyVal` (one level deep —
the handler never inspects structure nested further than a list or dict
of scalars), dictionary access that can raise `KeyError` / `IndexError` /
`TypeError` is modelled by `Except PyErr`, and every call made to the
provider SDK is recorded in a trace of `AWSCall`s (the provider world is
immutable during one invocation; start/stop/update are fire-and-forget,
so only the commands issued matter).
-/

/-- A scalar Python value, as found inside a request list or dict. -/
inductive PyAtom where
  | aNone
  | aStr (s : String)
  | aInt (n : Int)
  | aBool (b : Bool)
deriving DecidableEq, Repr

/-- A Python value, as far as the handler inspects request fields. -/
inductive PyVal where
  | vNone
  | vStr (s : String)
  | vInt (n : Int)
  | vBool (b : Bool)
  | vList (xs : List PyAtom)
  | vDict (kvs : List (String × PyAtom))
deriving DecidableEq, Repr

namespace PyVal

/-- Python truthiness (`if not x`). -/
def truthy : PyVal → Bool
  | vNone => false
  | vStr s => !s.isEmpty
  | vInt n => n != 0
  | vBool b => b
  | vList xs => !xs.isEmpty
  | vDict kvs => !kvs.isEmpty

/-- `isinstance(x, list)`. -/
def isList : PyVal → Bool
  | vList _ => true
  | _ => false

/-- `isinstance(x, dict)`. -/
def isDict : PyVal → Bool
  | vDict _ => true
  | _ => false

/-- `isinstance(x, str)`. -/
def isStr : PyVal → Bool
  | vStr _ => true
  | _ => false

end PyVal

/-- Exceptions the embedded fragments can raise. -/
inductive PyErr where
  | keyError (k : String)
  | indexError
  | typeError
deriving DecidableEq, Repr

instance {ε α : Type} [DecidableEq ε] [DecidableEq α] : DecidableEq (Except ε α)
  | Except.ok a, Except.ok b =>
    if h : a = b then isTrue (by rw [h]) else isFalse (by simp [h])
  | Except.error a, Except.error b =>
    if h : a = b then isTrue (by rw [h]) else isFalse (by simp [h])
  | Except.ok _, Except.error _ => isFalse (by simp)
  | Except.error _, Except.ok _ => isFalse (by simp)

/-- `event[k]` on the request dict (raises `KeyError` when absent). -/
def pyLookup (kvs : List (String × PyVal)) (k : String) : Except PyErr PyVal :=
  match kvs.find? (fun p => p.1 == k) with
  | some p => Except.ok p.2
  | none => Except.error (PyErr.keyError k)

/-- `x[k]` where `x` may be `None` or a non-dict (then `TypeError`);
on a dict an absent key raises `KeyError`. -/
def pySubscript (x : Option PyVal) (k : String) : Except PyErr PyAtom :=
  match x with
  | some (PyVal.vDict kvs) =>
    match kvs.find? (fun p => p.1 == k) with
    | some p => Except.ok p.2
    | none => Except.error (PyErr.keyError k)
  | _ => Except.error PyErr.typeError

/-- Escape a string for a JSON string literal (quote and backslash). -/
def jsonEscape (s : String) : String :=
  String.join (s.data.map (fun c =>
    if c = '\"' then "\\\"" else if c = '\\' then "\\\\" else String.mk [c]))

/-- `json.dumps` of a Python string. -/
def jsonStr (s : String) : String := "\"" ++ jsonEscape s ++ "\""

/-- `json.dumps` of a list given the rendered elements. -/
def jsonList (xs : List String) : String := "[" ++ String.intercalate ", " xs ++ "]"

/-- The response dict `{'statusCode': ..., 'body': ...}`. -/
structure Response where
  statusCode : Nat
  body : String
deriving DecidableEq, Repr

/-- `ControlService.__init__`: the three request fields (all optional,
defaulting to `None`) plus the `EXEC_ENV` environment value (empty when
the variable is unset). -/
structure ControlService where
  aws_service : Option PyVal := none
  target_service : Option PyVal := none
  action : Option PyVal := none
  exec_env : String := ""
deriving DecidableEq, Repr

/-- `validate_params`: reads the three keys (raising `KeyError` when one
is absent), then for each field in order checks truthiness and type,
returning the `(ControlService, result-dict)` pair; `none` models the
empty dict returned on success. -/
def validate_params (execEnv : String) (event : List (String × PyVal)) :
    Except PyErr (ControlService × Option Response) := do
  let aws_service ← pyLookup event "aws_service"
  let target_service ← pyLookup event "target_service"
  let action ← pyLookup event "action"
  if !aws_service.truthy then
    pure ({ exec_env := execEnv }, some ⟨400, jsonStr "aws_service is required!"⟩)
  else if !aws_service.isList then
    pure ({ exec_env := execEnv }, some ⟨400, jsonStr "aws_service is invalid!"⟩)
  else if !target_service.truthy then
    pure ({ exec_env := execEnv }, some ⟨400, jsonStr "target_service is required!"⟩)
  else if !target_service.isDict then
    pure ({ exec_env := execEnv }, some ⟨400, jsonStr "target_service is invalid!"⟩)
  else if !action.truthy then
    pure ({ exec_env := execEnv }, some ⟨400, jsonStr "action is required!"⟩)
  else if !action.isStr then
    pure ({ exec_env := execEnv }, some ⟨400, jsonStr "action is invalid!"⟩)
  else
    pure ({ aws_service := some aws_service, target_service := some target_service,
            action := some action, exec_env := execEnv }, none)

example : validate_params "" [("aws_service", PyVal.vStr "ec2"),
    ("target_service", PyVal.vDict [("service", PyAtom.aStr "web")]),
    ("action", PyVal.vStr "status")] =
    Except.ok ({ exec_env := "" }, some ⟨400, "\"aws_service is invalid!\""⟩) := by decide

/-- An AWS resource tag. -/
structure Tag where
  key : String
  value : String
deriving DecidableEq, Repr

/-- An EC2 instance as returned by `describe_instances` (the fields the
handler reads: `InstanceId`, `InstanceType`, `State.Name`, the optional
`InstanceLifecycle` key, and `Tags`). -/
structure Instance where
  instanceId : String
  instanceType : String
  state : String
  lifecycle : Option String
  tags : List Tag
deriving DecidableEq, Repr

/-- An Auto Scaling Group as returned by `describe_auto_scaling_groups`
(the fields the handler reads). -/
structure ASGroup where
  autoScalingGroupName : String
  desiredCapacity : Int
  tags : List Tag
deriving DecidableEq, Repr

/-- A call issued to the provider SDK, recorded in the invocation trace. -/
inductive AWSCall where
  | describeInstances
  | startInstances (ids : List String)
  | stopInstances (ids : List String)
  | describeAutoScalingGroups (names : Option (List String))
  | updateAutoScalingGroup (name : String) (minSize maxSize desiredCapacity : Int)
deriving DecidableEq, Repr

/-- A call that changes provider state (start/stop/update, as opposed to
the describe calls). -/
def AWSCall.isMutating : AWSCall → Bool
  | AWSCall.startInstances _ => true
  | AWSCall.stopInstances _ => true
  | AWSCall.updateAutoScalingGroup _ _ _ _ => true
  | _ => false

/-- The autoscaling client's `describe_auto_scaling_groups`, with and
without the `AutoScalingGroupNames` argument.  Kept abstract so that the
status operation can be analysed against an arbitrary responder. -/
structure ASGClient where
  describeGroups : Option (List String) → List ASGroup

/-- Monadic concatenation of the lists produced for each element
(a `for` loop accumulating emitted calls or results). -/
def exceptFlatMap {α β : Type} (f : α → Except PyErr (List β)) : List α → Except PyErr (List β)
  | [] => pure []
  | a :: as => do
    let b ← f a
    let rest ← exceptFlatMap f as
    pure (b ++ rest)

/-- Monadic concatenation over pairs of lists (trace and result). -/
def exceptFlatMap2 {α β γ : Type} (f : α → Except PyErr (List β × List γ)) :
    List α → Except PyErr (List β × List γ)
  | [] => pure ([], [])
  | a :: as => do
    let p ← f a
    let rest ← exceptFlatMap2 f as
    pure (p.1 ++ rest.1, p.2 ++ rest.2)

/-- Body of the innermost `update_ec2` loop for one tag of one instance:
on a `Service`-keyed tag the target value is looked up (possibly raising),
and on a match a start/stop command may be emitted.  A spot instance in
state `running` is skipped (`continue`). -/
def updateEc2TagCalls (action : Option PyVal) (targetService : Option PyVal)
    (inst : Instance) (t : Tag) : Except PyErr (List AWSCall) :=
  if t.key == "Service" then do
    let tv ← pySubscript targetService "service"
    if PyAtom.aStr t.value == tv then
      if action == some (PyVal.vStr "start") then
        if inst.state == "stopped" then pure [AWSCall.startInstances [inst.instanceId]]
        else pure []
      else if action == some (PyVal.vStr "stop") then
        if inst.state == "running" then
          if inst.lifecycle == some "spot" then pure []
          else pure [AWSCall.stopInstances [inst.instanceId]]
        else pure []
      else pure []
    else pure []
  else pure []

/-- `update_ec2`: describe all instances, then walk reservations,
instances and tags emitting start/stop commands. -/
def update_ec2 (reservations : List (List Instance)) (cs : ControlService) :
    Except PyErr (List AWSCall) := do
  let calls ← exceptFlatMap (fun resv =>
    exceptFlatMap (fun inst =>
      exceptFlatMap (updateEc2TagCalls cs.action cs.target_service inst) inst.tags) resv)
    reservations
  pure (AWSCall.describeInstances :: calls)

/-- `d[k] = v` on a Python dict whose values are strings: replace in
place when the key exists, else append. -/
def pyDictSet (d : List (String × String)) (k v : String) : List (String × String) :=
  match d with
  | [] => [(k, v)]
  | p :: rest => if p.1 == k then (k, v) :: rest else p :: pyDictSet rest k v

/-- `k in d` on a Python dict whose values are strings. -/
def pyDictHas (d : List (String × String)) (k : String) : Bool :=
  d.any (fun p => p.1 == k)

/-- The `info`-building tag loop of `get_ec2_status`: a `Name` tag stores
the display name, a matching `Service` tag on a running instance stores
`InstanceId` and `InstanceType`. -/
def ec2InfoTags (targetService : Option PyVal) (inst : Instance) :
    List Tag → List (String × String) → Except PyErr (List (String × String))
  | [], info => pure info
  | t :: ts, info =>
    if t.key == "Name" then ec2InfoTags targetService inst ts (pyDictSet info "Name" t.value)
    else if t.key == "Service" then do
      let tv ← pySubscript targetService "service"
      if PyAtom.aStr t.value == tv && inst.state == "running" then
        ec2InfoTags targetService inst ts
          (pyDictSet (pyDictSet info "InstanceId" inst.instanceId) "InstanceType" inst.instanceType)
      else ec2InfoTags targetService inst ts info
    else ec2InfoTags targetService inst ts info

/-- One instance's contribution to the `get_ec2_status` result: the built
`info` dict, kept only when non-empty and carrying an `InstanceId`, with
`Name` defaulted to the empty string. -/
def ec2StatusInstance (targetService : Option PyVal) (inst : Instance) :
    Except PyErr (List (List (String × String))) := do
  let info ← ec2InfoTags targetService inst inst.tags []
  if !info.isEmpty && pyDictHas info "InstanceId" then
    if !pyDictHas info "Name" then pure [pyDictSet info "Name" ""]
    else pure [info]
  else pure []

/-- `get_ec2_status`: describe all instances and collect one info dict
per matching running instance. -/
def get_ec2_status (reservations : List (List Instance)) (cs : ControlService) :
    Except PyErr (List AWSCall × List (List (String × String))) := do
  let result ← exceptFlatMap (fun resv =>
    exceptFlatMap (ec2StatusInstance cs.target_service) resv) reservations
  pure ([AWSCall.describeInstances], result)

/-- Body of the `update_auto_scaling_group` tag loop: on a matching
`Service` tag, emit a capacity update — `{1,1,1}` for start, `{0,0,0}`
for stop — unconditionally. -/
def updateAsgTagCalls (action : Option PyVal) (targetService : Option PyVal)
    (g : ASGroup) (t : Tag) : Except PyErr (List AWSCall) :=
  if t.key == "Service" then do
    let tv ← pySubscript targetService "service"
    if PyAtom.aStr t.value == tv then
      if action == some (PyVal.vStr "start") then
        pure [AWSCall.updateAutoScalingGroup g.autoScalingGroupName 1 1 1]
      else if action == some (PyVal.vStr "stop") then
        pure [AWSCall.updateAutoScalingGroup g.autoScalingGroupName 0 0 0]
      else pure []
    else pure []
  else pure []

/-- `update_auto_scaling_group`: describe all groups, then walk groups
and tags emitting capacity updates. -/
def update_auto_scaling_group (client : ASGClient) (cs : ControlService) :
    Except PyErr (List AWSCall) := do
  let calls ← exceptFlatMap (fun g =>
    exceptFlatMap (updateAsgTagCalls cs.action cs.target_service g) g.tags)
    (client.describeGroups none)
  pure (AWSCall.describeAutoScalingGroups none :: calls)

/-- One entry of the ASG status result (`{"AutoScalingGroupName": ...,
"Size": ...}`). -/
structure GroupStatus where
  autoScalingGroupName : String
  size : Int
deriving DecidableEq, Repr

/-- Body of the `get_auto_scaling_group_status` tag loop: on a matching
`Service` tag the group is re-fetched by name and `res[0]` is taken
without a guard — an empty re-fetch raises `IndexError`. -/
def asgStatusTagEntries (client : ASGClient) (targetService : Option PyVal)
    (g : ASGroup) (t : Tag) : Except PyErr (List AWSCall × List GroupStatus) :=
  if t.key == "Service" then do
    let tv ← pySubscript targetService "service"
    if PyAtom.aStr t.value == tv then
      match client.describeGroups (some [g.autoScalingGroupName]) with
      | [] => Except.error PyErr.indexError
      | g0 :: _ =>
        pure ([AWSCall.describeAutoScalingGroups (some [g.autoScalingGroupName])],
              [{ autoScalingGroupName := g0.autoScalingGroupName,
                 size := g0.desiredCapacity }])
    else pure ([], [])
  else pure ([], [])

/-- `get_auto_scaling_group_status`: describe all groups, then for each
matching group re-fetch it by name and report its name and desired
capacity. -/
def get_auto_scaling_group_status (client : ASGClient) (cs : ControlService) :
    Except PyErr (List AWSCall × List GroupStatus) := do
  let p ← exceptFlatMap2 (fun g =>
    exceptFlatMap2 (asgStatusTagEntries client cs.target_service g) g.tags)
    (client.describeGroups none)
  pure (AWSCall.describeAutoScalingGroups none :: p.1, p.2)

/-- The provider's state for one invocation: EC2 reservations and ASG
groups.  Immutable during the invocation (commands are fire-and-forget). -/
structure AWSWorld where
  reservations : List (List Instance)
  groups : List ASGroup

/-- The world's answer to `describe_auto_scaling_groups`: all groups, or
those whose name is among the requested names. -/
def describeGroupsWorld (groups : List ASGroup) : Option (List String) → List ASGroup
  | none => groups
  | some names => groups.filter (fun g => names.contains g.autoScalingGroupName)

/-- The autoscaling client bound to a concrete world. -/
def worldASGClient (w : AWSWorld) : ASGClient := ⟨describeGroupsWorld w.groups⟩

/-- A constructed boto3 client (the handler only reads back the service
name it was built from). -/
structure AWSClient where
  aws_service_name : PyAtom
deriving DecidableEq, Repr

/-- `get_resource`: build a client for the named service, `None` when the
SDK does not know the name (`ResourceNotExistsError`).  `known` is the
set of service names the SDK accepts. -/
def get_resource (known : PyAtom → Bool) (name : PyAtom) : Option AWSClient :=
  if known name then some ⟨name⟩ else none

/-- The client-construction loop of `lambda_handler`: one client per
requested service name, `none` as soon as one name is unknown. -/
def buildClients (known : PyAtom → Bool) : List PyAtom → Option (List AWSClient)
  | [] => some []
  | n :: ns =>
    match get_resource known n with
    | none => none
    | some c => (buildClients known ns).map (fun rest => c :: rest)

/-- One per-service entry of the status result (the list appended by
`get_aws_service_status` for an `ec2` or `autoscaling` client). -/
inductive ServiceStatus where
  | ec2Part (items : List (List (String × String)))
  | asgPart (items : List GroupStatus)
deriving DecidableEq, Repr

/-- `get_aws_service_status`: query each client in order, dispatching on
its service name; names other than `autoscaling`/`ec2` contribute
nothing. -/
def get_aws_service_status (w : AWSWorld) (cs : ControlService) :
    List AWSClient → Except PyErr (List AWSCall × List ServiceStatus)
  | [] => pure ([], [])
  | c :: rest =>
    if c.aws_service_name == PyAtom.aStr "autoscaling" then do
      let p ← get_auto_scaling_group_status (worldASGClient w) cs
      let q ← get_aws_service_status w cs rest
      pure (p.1 ++ q.1, ServiceStatus.asgPart p.2 :: q.2)
    else if c.aws_service_name == PyAtom.aStr "ec2" then do
      let p ← get_ec2_status w.reservations cs
      let q ← get_aws_service_status w cs rest
      pure (p.1 ++ q.1, ServiceStatus.ec2Part p.2 :: q.2)
    else get_aws_service_status w cs rest

/-- `update_aws_service`: apply the action through each client in order,
dispatching on its service name. -/
def update_aws_service (w : AWSWorld) (cs : ControlService) :
    List AWSClient → Except PyErr (List AWSCall)
  | [] => pure []
  | c :: rest =>
    if c.aws_service_name == PyAtom.aStr "autoscaling" then do
      let tr ← update_auto_scaling_group (worldASGClient w) cs
      let tr2 ← update_aws_service w cs rest
      pure (tr ++ tr2)
    else if c.aws_service_name == PyAtom.aStr "ec2" then do
      let tr ← update_ec2 w.reservations cs
      let tr2 ← update_aws_service w cs rest
      pure (tr ++ tr2)
    else update_aws_service w cs rest

/-- `json.dumps` of one EC2 info dict. -/
def jsonDumpsInfo (d : List (String × String)) : String :=
  "\x7b" ++ String.intercalate ", " (d.map (fun p => jsonStr p.1 ++ ": " ++ jsonStr p.2)) ++ "\x7d"

/-- `json.dumps` of one ASG status dict. -/
def jsonDumpsGroup (g : GroupStatus) : String :=
  "\x7b" ++ jsonStr "AutoScalingGroupName" ++ ": " ++ jsonStr g.autoScalingGroupName ++ ", "
      ++ jsonStr "Size" ++ ": " ++ toString g.size ++ "\x7d"

/-- `json.dumps` of one per-service result list. -/
def jsonDumpsService : ServiceStatus → String
  | ServiceStatus.ec2Part items => jsonList (items.map jsonDumpsInfo)
  | ServiceStatus.asgPart items => jsonList (items.map jsonDumpsGroup)

/-- `json.dumps` of the whole status result. -/
def jsonDumpsStatus (res : List ServiceStatus) : String :=
  jsonList (res.map jsonDumpsService)

/-- `lambda_handler`: validate, build one client per requested service
name (400 on an unknown name), then dispatch on the action — status
(200), start/stop (200, fire-and-forget), anything else 404.  `known`
models the service names the SDK accepts, `w` the provider state and
`execEnv` the `EXEC_ENV` environment variable.  The returned trace lists
the provider calls issued. -/
def lambda_handler (known : PyAtom → Bool) (w : AWSWorld) (execEnv : String)
    (event : List (String × PyVal)) : Except PyErr (Response × List AWSCall) := do
  let vp ← validate_params execEnv event
  let control_service := vp.1
  match vp.2 with
  | some validate_result => pure (validate_result, [])
  | none =>
    match control_service.aws_service with
    | some (PyVal.vList names) =>
      match buildClients known names with
      | none => pure (⟨400, jsonStr "aws_service is invalid!"⟩, [])
      | some aws_clients =>
        let msg := if !control_service.exec_env.isEmpty then
            "実行環境: " ++ control_service.exec_env ++ "\n" else ""
        if control_service.action == some (PyVal.vStr "status") then do
          let p ← get_aws_service_status w control_service aws_clients
          let body := jsonDumpsStatus p.2
          let msg := if !body.isEmpty then msg ++ "次のサービスが稼働しています\n" ++ body
                     else msg ++ "停止しています"
          pure (⟨200, msg⟩, p.1)
        else if control_service.action == some (PyVal.vStr "start")
            || control_service.action == some (PyVal.vStr "stop") then do
          let tr ← update_aws_service w control_service aws_clients
          let msg := if control_service.action == some (PyVal.vStr "start") then
                       msg ++ "起動リクエストの受付を開始しました"
                     else if control_service.action == some (PyVal.vStr "stop") then
                       msg ++ "停止リクエストの受付を開始しました"
                     else msg
          pure (⟨200, msg⟩, tr)
        else
          pure (⟨404, "Not Found!"⟩, [])
    | _ => Except.error PyErr.typeError

example : lambda_handler (fun n => n == PyAtom.aStr "ec2") ⟨[], []⟩ ""
    [("aws_service", PyVal.vList [PyAtom.aStr "ec2"]),
     ("target_service", PyVal.vDict [("service", PyAtom.aStr "web")]),
     ("action", PyVal.vStr "status")] =
    Except.ok (⟨200, "次のサービスが稼働しています\n[[]]"⟩, [AWSCall.describeInstances]) := by
  rfl

/-- Whether an embedded computation succeeded (no Python exception). -/
def exceptIsOk {ε α : Type} : Except ε α → Bool
  | Except.ok _ => true
  | Except.error _ => false

lemma exceptFlatMap_of_ok {α β : Type} (f : α → Except PyErr (List β)) (g : α → List β)
    (l : List α) (h : ∀ a ∈ l, f a = Except.ok (g a)) :
    exceptFlatMap f l = Except.ok (l.flatMap g) := by
  induction l with
  | nil => rfl
  | cons a as ih =>
    have ha := h a (by simp)
    have hrest := ih (fun x hx => h x (by simp [hx]))
    simp [exceptFlatMap, ha, hrest, Bind.bind, Except.bind, pure, Except.pure, List.flatMap_cons]

lemma exceptFlatMap2_of_ok {α β γ : Type} (f : α → Except PyErr (List β × List γ))
    (g1 : α → List β) (g2 : α → List γ)
    (l : List α) (h : ∀ a ∈ l, f a = Except.ok (g1 a, g2 a)) :
    exceptFlatMap2 f l = Except.ok (l.flatMap g1, l.flatMap g2) := by
  induction l with
  | nil => rfl
  | cons a as ih =>
    have ha := h a (by simp)
    have hrest := ih (fun x hx => h x (by simp [hx]))
    simp [exceptFlatMap2, ha, hrest, Bind.bind, Except.bind, pure, Except.pure, List.flatMap_cons]

lemma exceptFlatMap_isOk_ex {α β : Type} (f : α → Except PyErr (List β))
    (l : List α) (h : ∀ a ∈ l, ∃ b, f a = Except.ok b) :
    ∃ bs, exceptFlatMap f l = Except.ok bs := by
  induction l with
  | nil => exact ⟨[], rfl⟩
  | cons a as ih =>
    obtain ⟨b, hb⟩ := h a (by simp)
    obtain ⟨bs, hbs⟩ := ih (fun x hx => h x (by simp [hx]))
    exact ⟨b ++ bs, by simp [exceptFlatMap, hb, hbs, Bind.bind, Except.bind, pure, Except.pure]⟩

lemma exceptFlatMap2_isOk_all {α β γ : Type} (f : α → Except PyErr (List β × List γ))
    (l : List α) :
    exceptIsOk (exceptFlatMap2 f l) = l.all (fun a => exceptIsOk (f a)) := by
  induction l with
  | nil => rfl
  | cons a as ih =>
    cases hfa : f a with
    | error e => simp [exceptFlatMap2, hfa, Bind.bind, Except.bind, exceptIsOk]
    | ok p =>
      cases hrest : exceptFlatMap2 f as with
      | error e =>
        have hl : exceptFlatMap2 f (a :: as) = Except.error e := by
          simp [exceptFlatMap2, hfa, hrest, Bind.bind, Except.bind]
        have hv : exceptIsOk (exceptFlatMap2 f as) = false := by rw [hrest]; rfl
        rw [ih] at hv
        have hr : (a :: as).all (fun x => exceptIsOk (f x)) = false := by
          rw [List.all_cons]; simp [hv]
        rw [hl, hr]; rfl
      | ok q =>
        have hl : exceptFlatMap2 f (a :: as) = Except.ok (p.1 ++ q.1, p.2 ++ q.2) := by
          simp [exceptFlatMap2, hfa, hrest, Bind.bind, Except.bind, pure, Except.pure]
        have hv : exceptIsOk (exceptFlatMap2 f as) = true := by rw [hrest]; rfl
        rw [ih] at hv
        have hfa2 : exceptIsOk (f a) = true := by rw [hfa]; rfl
        have hr : (a :: as).all (fun x => exceptIsOk (f x)) = true := by
          rw [List.all_cons]; simp [hv, hfa2]
        rw [hl, hr]; rfl

lemma validate_params_valid (env : String) (event : List (String × PyVal))
    (names : List PyAtom) (d : List (String × PyAtom)) (a : String)
    (hva : pyLookup event "aws_service" = Except.ok (PyVal.vList names))
    (hvt : pyLookup event "target_service" = Except.ok (PyVal.vDict d))
    (hvb : pyLookup event "action" = Except.ok (PyVal.vStr a))
    (hne1 : names.isEmpty = false) (hne2 : d.isEmpty = false) (hne3 : a.isEmpty = false) :
    validate_params env event = Except.ok
      ({ aws_service := some (PyVal.vList names), target_service := some (PyVal.vDict d),
         action := some (PyVal.vStr a), exec_env := env }, none) := by
  simp [validate_params, hva, hvt, hvb, PyVal.truthy, PyVal.isList, PyVal.isDict,
    PyVal.isStr, hne1, hne2, hne3, Bind.bind, Except.bind, pure, Except.pure]

lemma buildClients_all_known (known : PyAtom → Bool) (names : List PyAtom)
    (h : ∀ n ∈ names, known n = true) :
    buildClients known names = some (names.map (fun n => ⟨n⟩)) := by
  induction names with
  | nil => rfl
  | cons n ns ih =>
    have hn := h n (by simp)
    have hrest := ih (fun x hx => h x (by simp [hx]))
    simp [buildClients, get_resource, hn, hrest]

lemma buildClients_unknown (known : PyAtom → Bool) (names : List PyAtom)
    (n : PyAtom) (hmem : n ∈ names) (hn : known n = false) :
    buildClients known names = none := by
  induction names with
  | nil => simp at hmem
  | cons m ms ih =>
    rcases List.mem_cons.mp hmem with h | h
    · subst h; simp [buildClients, get_resource, hn]
    · cases hk : known m with
      | false => simp [buildClients, get_resource, hk]
      | true => simp [buildClients, get_resource, hk, ih h]

/-- The calls the `update_ec2` loop emits for one tag, once the target
value has been resolved to `tv`. -/
def ec2TagCallsPure (action : Option PyVal) (tv : PyAtom) (inst : Instance) (t : Tag) :
    List AWSCall :=
  if t.key == "Service" then
    if PyAtom.aStr t.value == tv then
      if action == some (PyVal.vStr "start") then
        if inst.state == "stopped" then [AWSCall.startInstances [inst.instanceId]] else []
      else if action == some (PyVal.vStr "stop") then
        if inst.state == "running" then
          if inst.lifecycle == some "spot" then []
          else [AWSCall.stopInstances [inst.instanceId]]
        else []
      else []
    else []
  else []

/-- The calls `update_ec2` emits for one instance. -/
def ec2InstanceCalls (action : Option PyVal) (tv : PyAtom) (inst : Instance) : List AWSCall :=
  inst.tags.flatMap (ec2TagCallsPure action tv inst)

/-- The commands `update_ec2` emits across all reservations. -/
def ec2AllCalls (action : Option PyVal) (tv : PyAtom)
    (reservations : List (List Instance)) : List AWSCall :=
  reservations.flatMap (fun resv => resv.flatMap (ec2InstanceCalls action tv))

lemma updateEc2TagCalls_of_lookup (action ts : Option PyVal) (tv : PyAtom)
    (inst : Instance) (t : Tag)
    (hlook : pySubscript ts "service" = Except.ok tv) :
    updateEc2TagCalls action ts inst t = Except.ok (ec2TagCallsPure action tv inst t) := by
  unfold updateEc2TagCalls ec2TagCallsPure
  by_cases hk : (t.key == "Service") = true
  · simp [hk, hlook, Bind.bind, Except.bind, pure, Except.pure]
    split_ifs <;> rfl
  · simp [hk, pure, Except.pure]

lemma update_ec2_ok (reservations : List (List Instance)) (cs : ControlService) (tv : PyAtom)
    (hlook : pySubscript cs.target_service "service" = Except.ok tv) :
    update_ec2 reservations cs =
      Except.ok (AWSCall.describeInstances :: ec2AllCalls cs.action tv reservations) := by
  unfold update_ec2
  have h2 := exceptFlatMap_of_ok
    (fun resv => exceptFlatMap (fun inst =>
      exceptFlatMap (updateEc2TagCalls cs.action cs.target_service inst) inst.tags) resv)
    (fun resv => resv.flatMap (ec2InstanceCalls cs.action tv)) reservations ?_
  · simp [h2, Bind.bind, Except.bind, pure, Except.pure, ec2AllCalls]
  · intro resv _
    apply exceptFlatMap_of_ok
    intro inst _
    unfold ec2InstanceCalls
    apply exceptFlatMap_of_ok
    intro t _
    exact updateEc2TagCalls_of_lookup cs.action cs.target_service tv inst t hlook

lemma mem_ec2TagCallsPure_stop (c : AWSCall) (tv : PyAtom) (inst : Instance) (t : Tag)
    (h : c ∈ ec2TagCallsPure (some (PyVal.vStr "stop")) tv inst t) :
    c = AWSCall.stopInstances [inst.instanceId] ∧ inst.state = "running" ∧
      inst.lifecycle ≠ some "spot" := by
  unfold ec2TagCallsPure at h
  split_ifs at h with h1 h2 h3 h4 h5 h6 <;> simp_all

lemma ec2TagCallsPure_stop_eq (tv : PyAtom) (inst : Instance) (t : Tag)
    (hk : t.key = "Service") (hv : PyAtom.aStr t.value = tv)
    (hrun : inst.state = "running") (hns : inst.lifecycle ≠ some "spot") :
    ec2TagCallsPure (some (PyVal.vStr "stop")) tv inst t =
      [AWSCall.stopInstances [inst.instanceId]] := by
  simp [ec2TagCallsPure, hk, hv, hrun, hns]

/-- The tag `Service=web` used by the concrete test fixtures. -/
def webTag : Tag := ⟨"Service", "web"⟩

/-- A running spot instance tagged `Service=web`. -/
def runningSpot : Instance := ⟨"i-1", "t3.micro", "running", some "spot", [webTag]⟩

/-- A running on-demand instance tagged `Service=web`. -/
def runningNormal : Instance := ⟨"i-2", "t3.micro", "running", none, [webTag]⟩

/-- A stopped on-demand instance tagged `Service=web`. -/
def stoppedNormal : Instance := ⟨"i-3", "t3.small", "stopped", none, [webTag]⟩

/-- A validated `ControlService` for `aws_service=["ec2"]`,
`target_service={"service": "web"}` and the given action. -/
def csWith (a : String) : ControlService :=
  { aws_service := some (PyVal.vList [PyAtom.aStr "ec2"]),
    target_service := some (PyVal.vDict [("service", PyAtom.aStr "web")]),
    action := some (PyVal.vStr a), exec_env := "" }

/-- C2: for every stop request and every EC2 instance that carries a tag
`Service == targetTag` and is in state running, a stop command for that
instance appears in the trace of `update_ec2` if and only if the
instance's lifecycle is not spot; in particular a spot instance is never
issued a stop command.  (Instance ids are assumed to identify instances,
as the provider guarantees.) -/
theorem ec2_stop_iff_not_spot
    (reservations : List (List Instance)) (cs : ControlService) (tv : PyAtom)
    (resv : List Instance) (inst : Instance)
    (hact : cs.action = some (PyVal.vStr "stop"))
    (hlook : pySubscript cs.target_service "service" = Except.ok tv)
    (hresv : resv ∈ reservations) (hinst : inst ∈ resv)
    (hrun : inst.state = "running")
    (htag : ∃ t ∈ inst.tags, t.key = "Service" ∧ PyAtom.aStr t.value = tv)
    (huid : ∀ r ∈ reservations, ∀ i ∈ r, i.instanceId = inst.instanceId → i = inst) :
    ∃ calls, update_ec2 reservations cs = Except.ok calls ∧
      (AWSCall.stopInstances [inst.instanceId] ∈ calls ↔ inst.lifecycle ≠ some "spot") := by
  have hok := update_ec2_ok reservations cs tv hlook
  rw [hact] at hok
  refine ⟨_, hok, ?_, ?_⟩
  · intro hin
    rcases List.mem_cons.mp hin with h | h
    · exact absurd h (by simp)
    · unfold ec2AllCalls at h
      rcases List.mem_flatMap.mp h with ⟨r, hr, h⟩
      rcases List.mem_flatMap.mp h with ⟨i, hi, h⟩
      unfold ec2InstanceCalls at h
      rcases List.mem_flatMap.mp h with ⟨t, ht, h⟩
      obtain ⟨hc, hrun2, hns⟩ := mem_ec2TagCallsPure_stop _ tv i t h
      have hid : i.instanceId = inst.instanceId := by
        simp only [AWSCall.stopInstances.injEq, List.cons.injEq] at hc
        exact hc.1.symm
      have hii : i = inst := huid r hr i hi hid
      rwa [hii] at hns
  · intro hns
    obtain ⟨t, ht, htk, htv⟩ := htag
    have heq := ec2TagCallsPure_stop_eq tv inst t htk htv hrun hns
    apply List.mem_cons_of_mem
    unfold ec2AllCalls
    refine List.mem_flatMap.mpr ⟨resv, hresv, ?_⟩
    refine List.mem_flatMap.mpr ⟨inst, hinst, ?_⟩
    unfold ec2InstanceCalls
    refine List.mem_flatMap.mpr ⟨t, ht, ?_⟩
    rw [heq]
    simp

theorem ec2_stop_iff_not_spot_witness :
    ∃ calls, update_ec2 [[runningSpot]] (csWith "stop") = Except.ok calls ∧
      (AWSCall.stopInstances [runningSpot.instanceId] ∈ calls ↔
        runningSpot.lifecycle ≠ some "spot") :=
  ec2_stop_iff_not_spot [[runningSpot]] (csWith "stop") (PyAtom.aStr "web")
    [runningSpot] runningSpot (by decide) (by decide) (by decide) (by decide)
    (by decide) (by decide) (by decide)

/-- Whether an instance carries a tag `Service == tv`. -/
def hasMatchingServiceTag (tv : PyAtom) (i : Instance) : Bool :=
  i.tags.any (fun t => t.key == "Service" && (PyAtom.aStr t.value == tv))

/-- The arguments of the start commands within a trace, in order. -/
def startCallIds (calls : List AWSCall) : List (List String) :=
  calls.filterMap (fun c => match c with
    | AWSCall.startInstances ids => some ids
    | _ => none)

lemma startCallIds_append (l1 l2 : List AWSCall) :
    startCallIds (l1 ++ l2) = startCallIds l1 ++ startCallIds l2 := by
  simp [startCallIds, List.filterMap_append]

lemma startCallIds_tag (tv : PyAtom) (i : Instance) (t : Tag) :
    startCallIds (ec2TagCallsPure (some (PyVal.vStr "start")) tv i t)
      = if (t.key == "Service" && (PyAtom.aStr t.value == tv)) && i.state == "stopped"
        then [[i.instanceId]] else [] := by
  by_cases h1 : (t.key == "Service") = true <;>
    by_cases h2 : ((PyAtom.aStr t.value == tv)) = true <;>
      by_cases h3 : (i.state == "stopped") = true <;>
        simp [ec2TagCallsPure, startCallIds, h1, h2, h3]

lemma startCallIds_tags (tv : PyAtom) (i : Instance) (l : List Tag)
    (huniq : l.countP (fun t => t.key == "Service") ≤ 1) :
    startCallIds (l.flatMap (ec2TagCallsPure (some (PyVal.vStr "start")) tv i))
      = if l.any (fun t => t.key == "Service" && (PyAtom.aStr t.value == tv))
            && i.state == "stopped"
        then [[i.instanceId]] else [] := by
  induction l with
  | nil => simp [startCallIds]
  | cons t ts ih =>
    rw [List.flatMap_cons, startCallIds_append, startCallIds_tag]
    by_cases h1 : (t.key == "Service") = true
    · have hts0 : ts.countP (fun t => t.key == "Service") = 0 := by
        rw [List.countP_cons] at huniq
        simp only [h1, if_true] at huniq
        omega
      have hall := List.countP_eq_zero.mp hts0
      have htsnil : ts.flatMap (ec2TagCallsPure (some (PyVal.vStr "start")) tv i) = [] := by
        apply List.flatMap_eq_nil_iff.mpr
        intro t2 ht2
        have := hall t2 ht2
        simp [ec2TagCallsPure, this]
      have htsany : ts.any (fun t => t.key == "Service" && (PyAtom.aStr t.value == tv))
          = false := by
        apply List.any_eq_false.mpr
        intro t2 ht2
        have := hall t2 ht2
        simp [this]
      rw [htsnil, List.any_cons, htsany]
      simp [startCallIds]
    · have huniq2 : ts.countP (fun t => t.key == "Service") ≤ 1 := by
        rw [List.countP_cons] at huniq
        omega
      rw [ih huniq2, List.any_cons]
      simp [h1]

lemma startCallIds_instances (tv : PyAtom) (r : List Instance)
    (huniq : ∀ i ∈ r, i.tags.countP (fun t => t.key == "Service") ≤ 1) :
    r.flatMap (fun i => startCallIds (ec2InstanceCalls (some (PyVal.vStr "start")) tv i))
      = (r.filter (fun i => hasMatchingServiceTag tv i && i.state == "stopped")).map
          (fun i => [i.instanceId]) := by
  induction r with
  | nil => rfl
  | cons i r ih =>
    rw [List.flatMap_cons, List.filter_cons]
    have hi : startCallIds (ec2InstanceCalls (some (PyVal.vStr "start")) tv i)
        = if hasMatchingServiceTag tv i && i.state == "stopped"
          then [[i.instanceId]] else [] := by
      unfold ec2InstanceCalls hasMatchingServiceTag
      exact startCallIds_tags tv i i.tags (huniq i (by simp))
    rw [hi, ih (fun x hx => huniq x (by simp [hx]))]
    by_cases hp : (hasMatchingServiceTag tv i && i.state == "stopped") = true
    · simp [hp]
    · simp only [Bool.not_eq_true] at hp
      simp [hp]

/-- Distribution of the start-command projection over a loop. -/
lemma startCallIds_flatMap {α : Type} (g : α → List AWSCall) (l : List α) :
    startCallIds (l.flatMap g) = l.flatMap (fun a => startCallIds (g a)) := by
  induction l with
  | nil => rfl
  | cons a as ih => rw [List.flatMap_cons, startCallIds_append, ih, List.flatMap_cons]

lemma startCallIds_reservations (tv : PyAtom) (resvs : List (List Instance))
    (huniq : ∀ r ∈ resvs, ∀ i ∈ r, i.tags.countP (fun t => t.key == "Service") ≤ 1) :
    startCallIds (ec2AllCalls (some (PyVal.vStr "start")) tv resvs)
      = ((resvs.flatMap id).filter
          (fun i => hasMatchingServiceTag tv i && i.state == "stopped")).map
          (fun i => [i.instanceId]) := by
  induction resvs with
  | nil => rfl
  | cons r rs ih =>
    unfold ec2AllCalls
    rw [List.flatMap_cons, startCallIds_append, List.flatMap_cons, List.filter_append,
      List.map_append, startCallIds_flatMap,
      startCallIds_instances tv r (huniq r (by simp))]
    have hrs := ih (fun x hx => huniq x (by simp [hx]))
    unfold ec2AllCalls at hrs
    rw [startCallIds_flatMap] at hrs ⊢
    simp only [id] at hrs ⊢
    rw [hrs]

/-- C3: for every start request, the start commands `update_ec2` issues are
exactly one per instance that carries tag `Service == targetTag` and is in
state stopped, in provider enumeration order — so the start-call count
equals the count of matching stopped instances, and no other instance
(running or otherwise) is issued a start command.  (Each instance is
assumed to carry at most one `Service` tag, as the provider guarantees
tag-key uniqueness.) -/
theorem ec2_start_exactly_matching_stopped
    (reservations : List (List Instance)) (cs : ControlService) (tv : PyAtom)
    (hact : cs.action = some (PyVal.vStr "start"))
    (hlook : pySubscript cs.target_service "service" = Except.ok tv)
    (huniq : ∀ r ∈ reservations, ∀ i ∈ r,
      i.tags.countP (fun t => t.key == "Service") ≤ 1) :
    ∃ calls, update_ec2 reservations cs = Except.ok calls ∧
      startCallIds calls =
        ((reservations.flatMap id).filter
          (fun i => hasMatchingServiceTag tv i && i.state == "stopped")).map
          (fun i => [i.instanceId]) := by
  have hok := update_ec2_ok reservations cs tv hlook
  rw [hact] at hok
  refine ⟨_, hok, ?_⟩
  have hdrop : startCallIds (AWSCall.describeInstances ::
      ec2AllCalls (some (PyVal.vStr "start")) tv reservations)
      = startCallIds (ec2AllCalls (some (PyVal.vStr "start")) tv reservations) := by
    simp [startCallIds]
  rw [hdrop]
  exact startCallIds_reservations tv reservations huniq

theorem ec2_start_exactly_matching_stopped_witness :
    ∃ calls, update_ec2 [[stoppedNormal, runningNormal]] (csWith "start") = Except.ok calls ∧
      startCallIds calls =
        (([[stoppedNormal, runningNormal]].flatMap id).filter
          (fun i => hasMatchingServiceTag (PyAtom.aStr "web") i && i.state == "stopped")).map
          (fun i => [i.instanceId]) :=
  ec2_start_exactly_matching_stopped [[stoppedNormal, runningNormal]] (csWith "start")
    (PyAtom.aStr "web") (by decide) (by decide) (by decide)

/-- The calls the `update_auto_scaling_group` loop emits for one tag,
once the target value has been resolved to `tv`. -/
def asgTagCallsPure (action : Option PyVal) (tv : PyAtom) (g : ASGroup) (t : Tag) :
    List AWSCall :=
  if t.key == "Service" then
    if PyAtom.aStr t.value == tv then
      if action == some (PyVal.vStr "start") then
        [AWSCall.updateAutoScalingGroup g.autoScalingGroupName 1 1 1]
      else if action == some (PyVal.vStr "stop") then
        [AWSCall.updateAutoScalingGroup g.autoScalingGroupName 0 0 0]
      else []
    else []
  else []

/-- The commands `update_auto_scaling_group` emits across all groups. -/
def asgAllCalls (action : Option PyVal) (tv : PyAtom) (groups : List ASGroup) :
    List AWSCall :=
  groups.flatMap (fun g => g.tags.flatMap (asgTagCallsPure action tv g))

lemma updateAsgTagCalls_of_lookup (action ts : Option PyVal) (tv : PyAtom)
    (g : ASGroup) (t : Tag)
    (hlook : pySubscript ts "service" = Except.ok tv) :
    updateAsgTagCalls action ts g t = Except.ok (asgTagCallsPure action tv g t) := by
  unfold updateAsgTagCalls asgTagCallsPure
  by_cases hk : (t.key == "Service") = true
  · simp [hk, hlook, Bind.bind, Except.bind, pure, Except.pure]
    split_ifs <;> rfl
  · simp [hk, pure, Except.pure]

lemma update_auto_scaling_group_ok (client : ASGClient) (cs : ControlService) (tv : PyAtom)
    (hlook : pySubscript cs.target_service "service" = Except.ok tv) :
    update_auto_scaling_group client cs =
      Except.ok (AWSCall.describeAutoScalingGroups none ::
        asgAllCalls cs.action tv (client.describeGroups none)) := by
  unfold update_auto_scaling_group
  have h2 := exceptFlatMap_of_ok
    (fun g => exceptFlatMap (updateAsgTagCalls cs.action cs.target_service g) g.tags)
    (fun g => g.tags.flatMap (asgTagCallsPure cs.action tv g)) (client.describeGroups none) ?_
  · simp [h2, Bind.bind, Except.bind, pure, Except.pure, asgAllCalls]
  · intro g _
    apply exceptFlatMap_of_ok
    intro t _
    exact updateAsgTagCalls_of_lookup cs.action cs.target_service tv g t hlook

/-- Whether a group carries a tag `Service == tv`. -/
def groupHasMatchingTag (tv : PyAtom) (g : ASGroup) : Bool :=
  g.tags.any (fun t => t.key == "Service" && (PyAtom.aStr t.value == tv))

/-- The arguments of the capacity-update commands within a trace, in order. -/
def updateGroupCalls (calls : List AWSCall) : List (String × Int × Int × Int) :=
  calls.filterMap (fun c => match c with
    | AWSCall.updateAutoScalingGroup n a b d => some (n, a, b, d)
    | _ => none)

lemma updateGroupCalls_append (l1 l2 : List AWSCall) :
    updateGroupCalls (l1 ++ l2) = updateGroupCalls l1 ++ updateGroupCalls l2 := by
  simp [updateGroupCalls, List.filterMap_append]

lemma updateGroupCalls_flatMap {α : Type} (g : α → List AWSCall) (l : List α) :
    updateGroupCalls (l.flatMap g) = l.flatMap (fun a => updateGroupCalls (g a)) := by
  induction l with
  | nil => rfl
  | cons a as ih => rw [List.flatMap_cons, updateGroupCalls_append, ih, List.flatMap_cons]

lemma updateGroupCalls_tag (act : String) (v : Int)
    (hcase : (act = "start" ∧ v = 1) ∨ (act = "stop" ∧ v = 0))
    (tv : PyAtom) (g : ASGroup) (t : Tag) :
    updateGroupCalls (asgTagCallsPure (some (PyVal.vStr act)) tv g t)
      = if t.key == "Service" && (PyAtom.aStr t.value == tv)
        then [(g.autoScalingGroupName, v, v, v)] else [] := by
  rcases hcase with ⟨ha, hv⟩ | ⟨ha, hv⟩ <;> subst ha <;> subst hv <;>
    by_cases h1 : (t.key == "Service") = true <;>
      by_cases h2 : ((PyAtom.aStr t.value == tv)) = true <;>
        simp [asgTagCallsPure, updateGroupCalls, h1, h2]

lemma updateGroupCalls_tags (act : String) (v : Int)
    (hcase : (act = "start" ∧ v = 1) ∨ (act = "stop" ∧ v = 0))
    (tv : PyAtom) (g : ASGroup) (l : List Tag)
    (huniq : l.countP (fun t => t.key == "Service") ≤ 1) :
    updateGroupCalls (l.flatMap (asgTagCallsPure (some (PyVal.vStr act)) tv g))
      = if l.any (fun t => t.key == "Service" && (PyAtom.aStr t.value == tv))
        then [(g.autoScalingGroupName, v, v, v)] else [] := by
  induction l with
  | nil => simp [updateGroupCalls]
  | cons t ts ih =>
    rw [List.flatMap_cons, updateGroupCalls_append, updateGroupCalls_tag act v hcase]
    by_cases h1 : (t.key == "Service") = true
    · have hts0 : ts.countP (fun t => t.key == "Service") = 0 := by
        rw [List.countP_cons] at huniq
        simp only [h1, if_true] at huniq
        omega
      have hall := List.countP_eq_zero.mp hts0
      have htsnil : ts.flatMap (asgTagCallsPure (some (PyVal.vStr act)) tv g) = [] := by
        apply List.flatMap_eq_nil_iff.mpr
        intro t2 ht2
        have := hall t2 ht2
        simp [asgTagCallsPure, this]
      have htsany : ts.any (fun t => t.key == "Service" && (PyAtom.aStr t.value == tv))
          = false := by
        apply List.any_eq_false.mpr
        intro t2 ht2
        have := hall t2 ht2
        simp [this]
      rw [htsnil, List.any_cons, htsany]
      simp [updateGroupCalls]
    · have huniq2 : ts.countP (fun t => t.key == "Service") ≤ 1 := by
        rw [List.countP_cons] at huniq
        omega
      rw [ih huniq2, List.any_cons]
      simp [h1]

lemma updateGroupCalls_groups (act : String) (v : Int)
    (hcase : (act = "start" ∧ v = 1) ∨ (act = "stop" ∧ v = 0))
    (tv : PyAtom) (groups : List ASGroup)
    (huniq : ∀ g ∈ groups, g.tags.countP (fun t => t.key == "Service") ≤ 1) :
    updateGroupCalls (asgAllCalls (some (PyVal.vStr act)) tv groups)
      = (groups.filter (groupHasMatchingTag tv)).map
          (fun g => (g.autoScalingGroupName, v, v, v)) := by
  induction groups with
  | nil => rfl
  | cons g gs ih =>
    unfold asgAllCalls
    rw [List.flatMap_cons, updateGroupCalls_append, List.filter_cons]
    have hg : updateGroupCalls (g.tags.flatMap (asgTagCallsPure (some (PyVal.vStr act)) tv g))
        = if groupHasMatchingTag tv g then [(g.autoScalingGroupName, v, v, v)] else [] := by
      unfold groupHasMatchingTag
      exact updateGroupCalls_tags act v hcase tv g g.tags (huniq g (by simp))
    have hgs := ih (fun x hx => huniq x (by simp [hx]))
    unfold asgAllCalls at hgs
    rw [hg, hgs]
    by_cases hp : groupHasMatchingTag tv g = true
    · simp [hp]
    · simp only [Bool.not_eq_true] at hp
      simp [hp]

/-- C4: for every Auto Scaling Group listed by the client, a start request
issues exactly one capacity update `{min,max,desired} = {1,1,1}` to each
group whose tag set contains `(Service, targetTag)` — unconditionally,
regardless of the group's current capacity — and a stop request issues
`{0,0,0}`; groups without a matching tag receive no capacity update.
(Each group is assumed to carry at most one `Service` tag, as the
provider guarantees tag-key uniqueness.) -/
theorem asg_update_sets_capacity
    (client : ASGClient) (cs : ControlService) (tv : PyAtom)
    (hlook : pySubscript cs.target_service "service" = Except.ok tv)
    (huniq : ∀ g ∈ client.describeGroups none,
      g.tags.countP (fun t => t.key == "Service") ≤ 1) :
    (cs.action = some (PyVal.vStr "start") →
      ∃ calls, update_auto_scaling_group client cs = Except.ok calls ∧
        updateGroupCalls calls =
          ((client.describeGroups none).filter (groupHasMatchingTag tv)).map
            (fun g => (g.autoScalingGroupName, 1, 1, 1))) ∧
    (cs.action = some (PyVal.vStr "stop") →
      ∃ calls, update_auto_scaling_group client cs = Except.ok calls ∧
        updateGroupCalls calls =
          ((client.describeGroups none).filter (groupHasMatchingTag tv)).map
            (fun g => (g.autoScalingGroupName, 0, 0, 0))) := by
  constructor
  · intro hact
    have hok := update_auto_scaling_group_ok client cs tv hlook
    rw [hact] at hok
    refine ⟨_, hok, ?_⟩
    have hdrop : updateGroupCalls (AWSCall.describeAutoScalingGroups none ::
        asgAllCalls (some (PyVal.vStr "start")) tv (client.describeGroups none))
        = updateGroupCalls (asgAllCalls (some (PyVal.vStr "start")) tv
            (client.describeGroups none)) := by
      simp [updateGroupCalls]
    rw [hdrop]
    exact updateGroupCalls_groups "start" 1 (Or.inl ⟨rfl, rfl⟩) tv _ huniq
  · intro hact
    have hok := update_auto_scaling_group_ok client cs tv hlook
    rw [hact] at hok
    refine ⟨_, hok, ?_⟩
    have hdrop : updateGroupCalls (AWSCall.describeAutoScalingGroups none ::
        asgAllCalls (some (PyVal.vStr "stop")) tv (client.describeGroups none))
        = updateGroupCalls (asgAllCalls (some (PyVal.vStr "stop")) tv
            (client.describeGroups none)) := by
      simp [updateGroupCalls]
    rw [hdrop]
    exact updateGroupCalls_groups "stop" 0 (Or.inr ⟨rfl, rfl⟩) tv _ huniq

/-- An ASG tagged `Service=web` with desired capacity 3. -/
def webGroup : ASGroup := ⟨"asg-web", 3, [webTag]⟩

/-- An ASG tagged `Service=db` (non-matching). -/
def dbGroup : ASGroup := ⟨"asg-db", 2, [⟨"Service", "db"⟩]⟩

theorem asg_update_sets_capacity_witness :
    (csWith "start").action = some (PyVal.vStr "start") ∧
    ∃ calls, update_auto_scaling_group (worldASGClient ⟨[], [webGroup, dbGroup]⟩)
        (csWith "start") = Except.ok calls ∧
      updateGroupCalls calls =
        (((worldASGClient ⟨[], [webGroup, dbGroup]⟩).describeGroups none).filter
          (groupHasMatchingTag (PyAtom.aStr "web"))).map
          (fun g => (g.autoScalingGroupName, 1, 1, 1)) :=
  ⟨by decide,
    (asg_update_sets_capacity (worldASGClient ⟨[], [webGroup, dbGroup]⟩) (csWith "start")
      (PyAtom.aStr "web") (by decide) (by decide)).1 (by decide)⟩

lemma lambda_handler_of_validate_some (known : PyAtom → Bool) (w : AWSWorld)
    (env : String) (event : List (String × PyVal)) (cs0 : ControlService) (r : Response)
    (h : validate_params env event = Except.ok (cs0, some r)) :
    lambda_handler known w env event = Except.ok (r, []) := by
  simp [lambda_handler, h, Bind.bind, Except.bind, pure, Except.pure]

/-- C1 (counterexample): a request map genuinely missing the
`aws_service` key does not get a 400 response — `event["aws_service"]`
raises an unhandled `KeyError` and the invocation fails. -/
theorem missing_key_raises_keyerror :
    lambda_handler (fun _ => true) ⟨[], []⟩ "" [] =
      Except.error (PyErr.keyError "aws_service") := by rfl

/-- C1 (amended): for every request map that contains all three keys, if
the value of `aws_service`, `target_service` or `action` is falsy (such
as `None`, an empty list/dict or an empty string) then the handler
returns status 400 with the body naming the first such field
(`"<field> is required!"`), and no provider call is made; a key that is
absent from the map instead raises an unhandled `KeyError`. -/
theorem required_fields_falsy_400
    (known : PyAtom → Bool) (w : AWSWorld) (env : String)
    (event : List (String × PyVal)) (va vt vb : PyVal)
    (hva : pyLookup event "aws_service" = Except.ok va)
    (hvt : pyLookup event "target_service" = Except.ok vt)
    (hvb : pyLookup event "action" = Except.ok vb) :
    (va.truthy = false →
      lambda_handler known w env event =
        Except.ok (⟨400, jsonStr "aws_service is required!"⟩, [])) ∧
    (va.truthy = true → va.isList = true → vt.truthy = false →
      lambda_handler known w env event =
        Except.ok (⟨400, jsonStr "target_service is required!"⟩, [])) ∧
    (va.truthy = true → va.isList = true → vt.truthy = true → vt.isDict = true →
      vb.truthy = false →
      lambda_handler known w env event =
        Except.ok (⟨400, jsonStr "action is required!"⟩, [])) := by
  refine ⟨?_, ?_, ?_⟩
  · intro h1
    apply lambda_handler_of_validate_some known w env event { exec_env := env }
    simp [validate_params, hva, hvt, hvb, h1, Bind.bind, Except.bind, pure, Except.pure]
  · intro h1 h2 h3
    apply lambda_handler_of_validate_some known w env event { exec_env := env }
    simp [validate_params, hva, hvt, hvb, h1, h2, h3, Bind.bind, Except.bind,
      pure, Except.pure]
  · intro h1 h2 h3 h4 h5
    apply lambda_handler_of_validate_some known w env event { exec_env := env }
    simp [validate_params, hva, hvt, hvb, h1, h2, h3, h4, h5, Bind.bind, Except.bind,
      pure, Except.pure]

theorem required_fields_falsy_400_witness :
    lambda_handler (fun _ => true) ⟨[], []⟩ ""
      [("aws_service", PyVal.vList []),
       ("target_service", PyVal.vDict [("service", PyAtom.aStr "web")]),
       ("action", PyVal.vStr "status")] =
      Except.ok (⟨400, jsonStr "aws_service is required!"⟩, []) :=
  (required_fields_falsy_400 (fun _ => true) ⟨[], []⟩ ""
    [("aws_service", PyVal.vList []),
     ("target_service", PyVal.vDict [("service", PyAtom.aStr "web")]),
     ("action", PyVal.vStr "status")]
    (PyVal.vList []) (PyVal.vDict [("service", PyAtom.aStr "web")]) (PyVal.vStr "status")
    (by decide) (by decide) (by decide)).1 (by decide)

/-- C6 (counterexample): `aws_service = 0` is present and is not a
sequence, yet the handler answers with the `"required"` message, not the
`"invalid"` one, because the truthiness check precedes the type check. -/
theorem wrong_type_falsy_gets_required :
    lambda_handler (fun _ => true) ⟨[], []⟩ ""
      [("aws_service", PyVal.vInt 0),
       ("target_service", PyVal.vDict [("service", PyAtom.aStr "web")]),
       ("action", PyVal.vStr "status")] =
      Except.ok (⟨400, jsonStr "aws_service is required!"⟩, []) ∧
    jsonStr "aws_service is required!" ≠ jsonStr "aws_service is invalid!" := by
  constructor
  · rfl
  · decide

/-- C6 (amended): for every request whose `aws_service` is truthy but not
a list, or whose `target_service` is truthy but not a dict, or whose
`action` is truthy but not a string, the handler returns 400 with the
corresponding `"is invalid!"` message (in particular `aws_service="ec2"`
yields `"aws_service is invalid!"`); a falsy wrong-typed value is instead
reported with the `"is required!"` message. -/
theorem invalid_type_400
    (known : PyAtom → Bool) (w : AWSWorld) (env : String)
    (event : List (String × PyVal)) (va vt vb : PyVal)
    (hva : pyLookup event "aws_service" = Except.ok va)
    (hvt : pyLookup event "target_service" = Except.ok vt)
    (hvb : pyLookup event "action" = Except.ok vb) :
    (va.truthy = true → va.isList = false →
      lambda_handler known w env event =
        Except.ok (⟨400, jsonStr "aws_service is invalid!"⟩, [])) ∧
    (va.truthy = true → va.isList = true → vt.truthy = true → vt.isDict = false →
      lambda_handler known w env event =
        Except.ok (⟨400, jsonStr "target_service is invalid!"⟩, [])) ∧
    (va.truthy = true → va.isList = true → vt.truthy = true → vt.isDict = true →
      vb.truthy = true → vb.isStr = false →
      lambda_handler known w env event =
        Except.ok (⟨400, jsonStr "action is invalid!"⟩, [])) := by
  refine ⟨?_, ?_, ?_⟩
  · intro h1 h2
    apply lambda_handler_of_validate_some known w env event { exec_env := env }
    simp [validate_params, hva, hvt, hvb, h1, h2, Bind.bind, Except.bind, pure, Except.pure]
  · intro h1 h2 h3 h4
    apply lambda_handler_of_validate_some known w env event { exec_env := env }
    simp [validate_params, hva, hvt, hvb, h1, h2, h3, h4, Bind.bind, Except.bind,
      pure, Except.pure]
  · intro h1 h2 h3 h4 h5 h6
    apply lambda_handler_of_validate_some known w env event { exec_env := env }
    simp [validate_params, hva, hvt, hvb, h1, h2, h3, h4, h5, h6, Bind.bind, Except.bind,
      pure, Except.pure]

theorem invalid_type_400_witness :
    lambda_handler (fun _ => true) ⟨[], []⟩ ""
      [("aws_service", PyVal.vStr "ec2"),
       ("target_service", PyVal.vDict [("service", PyAtom.aStr "web")]),
       ("action", PyVal.vStr "status")] =
      Except.ok (⟨400, jsonStr "aws_service is invalid!"⟩, []) :=
  (invalid_type_400 (fun _ => true) ⟨[], []⟩ ""
    [("aws_service", PyVal.vStr "ec2"),
     ("target_service", PyVal.vDict [("service", PyAtom.aStr "web")]),
     ("action", PyVal.vStr "status")]
    (PyVal.vStr "ec2") (PyVal.vDict [("service", PyAtom.aStr "web")]) (PyVal.vStr "status")
    (by decide) (by decide) (by decide)).1 (by decide) (by decide)

/-- The `json.dumps` of a status result is never the empty string, so the
`else` branch of the status handler (the `"停止しています"` message) is
dead code. -/
lemma jsonDumpsStatus_ne_empty (res : List ServiceStatus) : jsonDumpsStatus res ≠ "" := by
  unfold jsonDumpsStatus jsonList
  intro h
  have hlen : ("[" ++ String.intercalate ", " (res.map jsonDumpsService) ++ "]").length = 0 := by
    rw [h]; rfl
  rw [String.length_append, String.length_append] at hlen
  have h1 : "[".length = 1 := rfl
  have h2 : "]".length = 1 := rfl
  omega

/-- C5 (failing input): a valid `["ec2"]` status request against a
provider with zero matching instances returns 200 whose body is the
"running" banner followed by the JSON list `[[]]` — not the
"no resources running"/"stopped" message the specification promises
(that branch is unreachable, `json.dumps` never returning `""`). -/
theorem status_empty_world_reports_running :
    lambda_handler (fun n => n == PyAtom.aStr "ec2") ⟨[], []⟩ ""
      [("aws_service", PyVal.vList [PyAtom.aStr "ec2"]),
       ("target_service", PyVal.vDict [("service", PyAtom.aStr "web")]),
       ("action", PyVal.vStr "status")] =
      Except.ok (⟨200, "次のサービスが稼働しています\n[[]]"⟩, [AWSCall.describeInstances]) := by
  rfl

/-- C7: an otherwise-valid request naming a resource kind the SDK does
not know is answered 400 `"aws_service is invalid!"`, with an empty
provider trace: no command is issued, in particular none for the known
kinds that precede the unknown one in the list. -/
theorem unknown_service_400_no_calls
    (known : PyAtom → Bool) (w : AWSWorld) (env : String)
    (event : List (String × PyVal)) (names : List PyAtom)
    (d : List (String × PyAtom)) (a : String) (n : PyAtom)
    (hva : pyLookup event "aws_service" = Except.ok (PyVal.vList names))
    (hvt : pyLookup event "target_service" = Except.ok (PyVal.vDict d))
    (hvb : pyLookup event "action" = Except.ok (PyVal.vStr a))
    (hne1 : names.isEmpty = false) (hne2 : d.isEmpty = false) (hne3 : a.isEmpty = false)
    (hmem : n ∈ names) (hunknown : known n = false) :
    lambda_handler known w env event =
      Except.ok (⟨400, jsonStr "aws_service is invalid!"⟩, []) := by
  have hvalid := validate_params_valid env event names d a hva hvt hvb hne1 hne2 hne3
  have hbuild := buildClients_unknown known names n hmem hunknown
  simp [lambda_handler, hvalid, hbuild, Bind.bind, Except.bind, pure, Except.pure]

theorem unknown_service_400_no_calls_witness :
    lambda_handler (fun x => x == PyAtom.aStr "ec2") ⟨[], []⟩ ""
      [("aws_service", PyVal.vList [PyAtom.aStr "ec2", PyAtom.aStr "unknown"]),
       ("target_service", PyVal.vDict [("service", PyAtom.aStr "web")]),
       ("action", PyVal.vStr "start")] =
      Except.ok (⟨400, jsonStr "aws_service is invalid!"⟩, []) :=
  unknown_service_400_no_calls (fun x => x == PyAtom.aStr "ec2") ⟨[], []⟩ ""
    [("aws_service", PyVal.vList [PyAtom.aStr "ec2", PyAtom.aStr "unknown"]),
     ("target_service", PyVal.vDict [("service", PyAtom.aStr "web")]),
     ("action", PyVal.vStr "start")]
    [PyAtom.aStr "ec2", PyAtom.aStr "unknown"] [("service", PyAtom.aStr "web")] "start"
    (PyAtom.aStr "unknown") (by decide) (by decide) (by decide) (by decide) (by decide)
    (by decide) (by decide) (by decide)

/-- C8: a request that passes validation and client construction but
whose action is outside start/stop/status is answered 404 `"Not Found!"`,
whatever the other fields are. -/
theorem unrecognized_action_404
    (known : PyAtom → Bool) (w : AWSWorld) (env : String)
    (event : List (String × PyVal)) (names : List PyAtom)
    (d : List (String × PyAtom)) (a : String)
    (hva : pyLookup event "aws_service" = Except.ok (PyVal.vList names))
    (hvt : pyLookup event "target_service" = Except.ok (PyVal.vDict d))
    (hvb : pyLookup event "action" = Except.ok (PyVal.vStr a))
    (hne1 : names.isEmpty = false) (hne2 : d.isEmpty = false) (hne3 : a.isEmpty = false)
    (hknown : ∀ x ∈ names, known x = true)
    (ha1 : a ≠ "status") (ha2 : a ≠ "start") (ha3 : a ≠ "stop") :
    lambda_handler known w env event = Except.ok (⟨404, "Not Found!"⟩, []) := by
  have hvalid := validate_params_valid env event names d a hva hvt hvb hne1 hne2 hne3
  have hbuild := buildClients_all_known known names hknown
  simp [lambda_handler, hvalid, hbuild, beq_iff_eq, ha1, ha2, ha3, Bind.bind, Except.bind,
    pure, Except.pure]

theorem unrecognized_action_404_witness :
    lambda_handler (fun x => x == PyAtom.aStr "ec2") ⟨[], []⟩ ""
      [("aws_service", PyVal.vList [PyAtom.aStr "ec2"]),
       ("target_service", PyVal.vDict [("service", PyAtom.aStr "web")]),
       ("action", PyVal.vStr "restart")] =
      Except.ok (⟨404, "Not Found!"⟩, []) :=
  unrecognized_action_404 (fun x => x == PyAtom.aStr "ec2") ⟨[], []⟩ ""
    [("aws_service", PyVal.vList [PyAtom.aStr "ec2"]),
     ("target_service", PyVal.vDict [("service", PyAtom.aStr "web")]),
     ("action", PyVal.vStr "restart")]
    [PyAtom.aStr "ec2"] [("service", PyAtom.aStr "web")] "restart"
    (by decide) (by decide) (by decide) (by decide) (by decide) (by decide)
    (by decide) (by decide) (by decide) (by decide)

lemma exceptFlatMap2_ok_pred {α β γ : Type} (f : α → Except PyErr (List β × List γ))
    (P : β → Bool) (l : List α)
    (h : ∀ a ∈ l, ∃ p, f a = Except.ok p ∧ p.1.all P = true) :
    ∃ q, exceptFlatMap2 f l = Except.ok q ∧ q.1.all P = true := by
  induction l with
  | nil => exact ⟨([], []), rfl, rfl⟩
  | cons a as ih =>
    obtain ⟨p, hp, hp1⟩ := h a (by simp)
    obtain ⟨q, hq, hq1⟩ := ih (fun x hx => h x (by simp [hx]))
    refine ⟨(p.1 ++ q.1, p.2 ++ q.2), ?_, ?_⟩
    · simp [exceptFlatMap2, hp, hq, Bind.bind, Except.bind, pure, Except.pure]
    · simp only [List.all_append, hp1, hq1, Bool.and_self]

lemma ec2InfoTags_ok (ts : Option PyVal) (tv : PyAtom) (i : Instance)
    (hlook : pySubscript ts "service" = Except.ok tv) :
    ∀ (l : List Tag) (info : List (String × String)),
      ∃ out, ec2InfoTags ts i l info = Except.ok out := by
  intro l
  induction l with
  | nil => intro info; exact ⟨info, rfl⟩
  | cons t ts2 ih =>
    intro info
    by_cases h1 : (t.key == "Name") = true
    · simpa [ec2InfoTags, h1] using ih (pyDictSet info "Name" t.value)
    · by_cases h2 : (t.key == "Service") = true
      · by_cases h3 : (PyAtom.aStr t.value == tv && i.state == "running") = true
        · simpa [ec2InfoTags, h1, h2, h3, hlook, Bind.bind, Except.bind] using
            ih (pyDictSet (pyDictSet info "InstanceId" i.instanceId)
              "InstanceType" i.instanceType)
        · simpa [ec2InfoTags, h1, h2, h3, hlook, Bind.bind, Except.bind] using ih info
      · simpa [ec2InfoTags, h1, h2] using ih info

lemma ec2StatusInstance_ok (ts : Option PyVal) (tv : PyAtom) (i : Instance)
    (hlook : pySubscript ts "service" = Except.ok tv) :
    ∃ out, ec2StatusInstance ts i = Except.ok out := by
  obtain ⟨info, hinfo⟩ := ec2InfoTags_ok ts tv i hlook i.tags []
  unfold ec2StatusInstance
  rw [hinfo]
  simp only [Bind.bind, Except.bind]
  split_ifs <;> exact ⟨_, rfl⟩

lemma get_ec2_status_ok (reservations : List (List Instance)) (cs : ControlService)
    (tv : PyAtom)
    (hlook : pySubscript cs.target_service "service" = Except.ok tv) :
    ∃ res, get_ec2_status reservations cs = Except.ok ([AWSCall.describeInstances], res) := by
  have h := exceptFlatMap_isOk_ex
    (fun resv => exceptFlatMap (ec2StatusInstance cs.target_service) resv) reservations ?_
  · obtain ⟨res, hres⟩ := h
    exact ⟨res, by simp [get_ec2_status, hres, Bind.bind, Except.bind, pure, Except.pure]⟩
  · intro resv _
    exact exceptFlatMap_isOk_ex (ec2StatusInstance cs.target_service) resv
      (fun i _ => ec2StatusInstance_ok cs.target_service tv i hlook)

lemma asgStatusTagEntries_world_ok (w : AWSWorld) (ts : Option PyVal) (tv : PyAtom)
    (g : ASGroup) (t : Tag) (hg : g ∈ w.groups)
    (hlook : pySubscript ts "service" = Except.ok tv) :
    ∃ p, asgStatusTagEntries (worldASGClient w) ts g t = Except.ok p ∧
      p.1.all (fun c => !c.isMutating) = true := by
  by_cases h1 : (t.key == "Service") = true
  · by_cases h2 : (PyAtom.aStr t.value == tv) = true
    · have hmem : g ∈ describeGroupsWorld w.groups (some [g.autoScalingGroupName]) := by
        simp [describeGroupsWorld, List.mem_filter, hg]
      cases hcase : describeGroupsWorld w.groups (some [g.autoScalingGroupName]) with
      | nil => rw [hcase] at hmem; simp at hmem
      | cons g0 rest =>
        refine ⟨([AWSCall.describeAutoScalingGroups (some [g.autoScalingGroupName])],
          [{ autoScalingGroupName := g0.autoScalingGroupName,
             size := g0.desiredCapacity }]), ?_, by simp [AWSCall.isMutating]⟩
        simp [asgStatusTagEntries, h1, h2, hlook, Bind.bind, Except.bind, pure, Except.pure,
          worldASGClient, hcase]
    · exact ⟨([], []), by
        simp [asgStatusTagEntries, h1, h2, hlook, Bind.bind, Except.bind,
          pure, Except.pure], rfl⟩
  · exact ⟨([], []), by simp [asgStatusTagEntries, h1, pure, Except.pure], rfl⟩

lemma get_asg_status_world_ok (w : AWSWorld) (cs : ControlService) (tv : PyAtom)
    (hlook : pySubscript cs.target_service "service" = Except.ok tv) :
    ∃ p, get_auto_scaling_group_status (worldASGClient w) cs = Except.ok p ∧
      p.1.all (fun c => !c.isMutating) = true := by
  have h := exceptFlatMap2_ok_pred
    (fun g => exceptFlatMap2 (asgStatusTagEntries (worldASGClient w) cs.target_service g) g.tags)
    (fun c => !c.isMutating) ((worldASGClient w).describeGroups none) ?_
  · obtain ⟨q, hq, hq1⟩ := h
    refine ⟨(AWSCall.describeAutoScalingGroups none :: q.1, q.2), ?_, ?_⟩
    · simp [get_auto_scaling_group_status, hq, Bind.bind, Except.bind, pure, Except.pure]
    · rw [List.all_cons, hq1]; rfl
  · intro g hgmem
    have hg : g ∈ w.groups := by simpa [worldASGClient, describeGroupsWorld] using hgmem
    exact exceptFlatMap2_ok_pred _ _ g.tags
      (fun t _ => asgStatusTagEntries_world_ok w cs.target_service tv g t hg hlook)

lemma get_aws_service_status_ok (w : AWSWorld) (cs : ControlService) (tv : PyAtom)
    (hlook : pySubscript cs.target_service "service" = Except.ok tv)
    (clients : List AWSClient) :
    ∃ p, get_aws_service_status w cs clients = Except.ok p ∧
      p.1.all (fun c => !c.isMutating) = true := by
  induction clients with
  | nil => exact ⟨([], []), rfl, rfl⟩
  | cons c rest ih =>
    obtain ⟨q, hq, hq1⟩ := ih
    by_cases h1 : (c.aws_service_name == PyAtom.aStr "autoscaling") = true
    · obtain ⟨p, hp, hp1⟩ := get_asg_status_world_ok w cs tv hlook
      refine ⟨(p.1 ++ q.1, ServiceStatus.asgPart p.2 :: q.2), ?_, ?_⟩
      · simp [get_aws_service_status, h1, hp, hq, Bind.bind, Except.bind, pure, Except.pure]
      · simp only [List.all_append, hp1, hq1, Bool.and_self]
    · by_cases h2 : (c.aws_service_name == PyAtom.aStr "ec2") = true
      · obtain ⟨res, hres⟩ := get_ec2_status_ok w.reservations cs tv hlook
        refine ⟨([AWSCall.describeInstances] ++ q.1, ServiceStatus.ec2Part res :: q.2), ?_, ?_⟩
        · simp [get_aws_service_status, h1, h2, hres, hq, Bind.bind, Except.bind,
            pure, Except.pure]
        · simp only [List.all_append, hq1, Bool.and_self, List.all_cons]
          simp [AWSCall.isMutating]
      · exact ⟨q, by simp [get_aws_service_status, h1, h2, hq], hq1⟩

/-- C9: a valid status request (all requested kinds known to the SDK, the
target dict carrying its `service` key) completes and its provider trace
contains no mutating call — no start, no stop, no capacity update; only
describe calls are issued, so provider state is untouched. -/
theorem status_issues_no_mutations
    (known : PyAtom → Bool) (w : AWSWorld) (env : String)
    (event : List (String × PyVal)) (names : List PyAtom)
    (d : List (String × PyAtom)) (tv : PyAtom)
    (hva : pyLookup event "aws_service" = Except.ok (PyVal.vList names))
    (hvt : pyLookup event "target_service" = Except.ok (PyVal.vDict d))
    (hvb : pyLookup event "action" = Except.ok (PyVal.vStr "status"))
    (hne1 : names.isEmpty = false) (hne2 : d.isEmpty = false)
    (hknown : ∀ x ∈ names, known x = true)
    (hlook : pySubscript (some (PyVal.vDict d)) "service" = Except.ok tv) :
    ∃ resp trace, lambda_handler known w env event = Except.ok (resp, trace) ∧
      trace.all (fun c => !c.isMutating) = true := by
  have hvalid := validate_params_valid env event names d "status" hva hvt hvb hne1 hne2 rfl
  have hbuild := buildClients_all_known known names hknown
  obtain ⟨p, hp, hp1⟩ := get_aws_service_status_ok w
    { aws_service := some (PyVal.vList names), target_service := some (PyVal.vDict d),
      action := some (PyVal.vStr "status"), exec_env := env } tv hlook
    (names.map (fun n => ⟨n⟩))
  have hex : ∃ resp, lambda_handler known w env event = Except.ok (resp, p.1) := by
    simp [lambda_handler, hvalid, hbuild, hp, Bind.bind, Except.bind, pure, Except.pure]
  obtain ⟨resp, hresp⟩ := hex
  exact ⟨resp, p.1, hresp, hp1⟩

theorem status_issues_no_mutations_witness :
    ∃ resp trace,
      lambda_handler (fun x => x == PyAtom.aStr "ec2" || x == PyAtom.aStr "autoscaling")
        ⟨[[runningNormal, stoppedNormal]], [webGroup, dbGroup]⟩ "dev"
        [("aws_service", PyVal.vList [PyAtom.aStr "ec2", PyAtom.aStr "autoscaling"]),
         ("target_service", PyVal.vDict [("service", PyAtom.aStr "web")]),
         ("action", PyVal.vStr "status")] = Except.ok (resp, trace) ∧
      trace.all (fun c => !c.isMutating) = true :=
  status_issues_no_mutations
    (fun x => x == PyAtom.aStr "ec2" || x == PyAtom.aStr "autoscaling")
    ⟨[[runningNormal, stoppedNormal]], [webGroup, dbGroup]⟩ "dev"
    [("aws_service", PyVal.vList [PyAtom.aStr "ec2", PyAtom.aStr "autoscaling"]),
     ("target_service", PyVal.vDict [("service", PyAtom.aStr "web")]),
     ("action", PyVal.vStr "status")]
    [PyAtom.aStr "ec2", PyAtom.aStr "autoscaling"] [("service", PyAtom.aStr "web")]
    (PyAtom.aStr "web") (by decide) (by decide) (by decide) (by decide) (by decide)
    (by decide) (by decide)

lemma asgStatusTagEntries_isOk (client : ASGClient) (ts : Option PyVal) (tv : PyAtom)
    (g : ASGroup) (t : Tag)
    (hlook : pySubscript ts "service" = Except.ok tv) :
    exceptIsOk (asgStatusTagEntries client ts g t)
      = !(t.key == "Service" && ((PyAtom.aStr t.value == tv) &&
          (client.describeGroups (some [g.autoScalingGroupName])).isEmpty)) := by
  by_cases h1 : (t.key == "Service") = true
  · by_cases h2 : (PyAtom.aStr t.value == tv) = true
    · cases hcase : client.describeGroups (some [g.autoScalingGroupName]) with
      | nil =>
        simp [asgStatusTagEntries, h1, h2, hlook, hcase, Bind.bind, Except.bind, exceptIsOk]
      | cons g0 rest =>
        simp [asgStatusTagEntries, h1, h2, hlook, hcase, Bind.bind, Except.bind,
          pure, Except.pure, exceptIsOk]
    · simp [asgStatusTagEntries, h1, h2, hlook, Bind.bind, Except.bind,
        pure, Except.pure, exceptIsOk]
  · simp [asgStatusTagEntries, h1, pure, Except.pure, exceptIsOk]

lemma get_asg_status_isOk (client : ASGClient) (cs : ControlService) (tv : PyAtom)
    (hlook : pySubscript cs.target_service "service" = Except.ok tv) :
    exceptIsOk (get_auto_scaling_group_status client cs)
      = (client.describeGroups none).all (fun g => g.tags.all (fun t =>
          !(t.key == "Service" && ((PyAtom.aStr t.value == tv) &&
            (client.describeGroups (some [g.autoScalingGroupName])).isEmpty)))) := by
  have hcong : ∀ g : ASGroup,
      exceptIsOk (exceptFlatMap2 (asgStatusTagEntries client cs.target_service g) g.tags)
        = g.tags.all (fun t =>
            !(t.key == "Service" && ((PyAtom.aStr t.value == tv) &&
              (client.describeGroups (some [g.autoScalingGroupName])).isEmpty))) := by
    intro g
    rw [exceptFlatMap2_isOk_all]
    congr 1
    funext t
    exact asgStatusTagEntries_isOk client cs.target_service tv g t hlook
  have houter := exceptFlatMap2_isOk_all
    (fun g => exceptFlatMap2 (asgStatusTagEntries client cs.target_service g) g.tags)
    (client.describeGroups none)
  have hmain : exceptIsOk (get_auto_scaling_group_status client cs)
      = exceptIsOk (exceptFlatMap2
          (fun g => exceptFlatMap2 (asgStatusTagEntries client cs.target_service g) g.tags)
          (client.describeGroups none)) := by
    unfold get_auto_scaling_group_status
    cases hX : exceptFlatMap2
        (fun g => exceptFlatMap2 (asgStatusTagEntries client cs.target_service g) g.tags)
        (client.describeGroups none) <;>
      simp [hX, Bind.bind, Except.bind, pure, Except.pure, exceptIsOk]
  rw [hmain, houter]
  congr 1
  funext g
  exact hcong g

/-- C10: the ASG status operation succeeds exactly when, for every group
of the initial full listing that carries a matching `Service` tag, the
per-name re-fetch returns a non-empty list; the unguarded `res[0]` makes
an empty re-fetch raise `IndexError`, so the operation is total only
under that precondition (satisfied in particular by the immutable world
client, whose re-fetch of a listed group always contains it). -/
theorem asg_status_total_iff
    (client : ASGClient) (cs : ControlService) (tv : PyAtom)
    (hlook : pySubscript cs.target_service "service" = Except.ok tv) :
    exceptIsOk (get_auto_scaling_group_status client cs) = true ↔
      ∀ g ∈ client.describeGroups none,
        (∃ t ∈ g.tags, t.key = "Service" ∧ PyAtom.aStr t.value = tv) →
        client.describeGroups (some [g.autoScalingGroupName]) ≠ [] := by
  rw [get_asg_status_isOk client cs tv hlook, List.all_eq_true]
  constructor
  · intro h g hg htag hemp
    obtain ⟨t, ht, htk, htv⟩ := htag
    have h1 := h g hg
    rw [List.all_eq_true] at h1
    have h2 := h1 t ht
    simp [htk, htv, hemp] at h2
  · intro h g hg
    rw [List.all_eq_true]
    intro t ht
    by_cases hk : t.key = "Service"
    · by_cases hv2 : PyAtom.aStr t.value = tv
      · have hne := h g hg ⟨t, ht, hk, hv2⟩
        have hemp : (client.describeGroups (some [g.autoScalingGroupName])).isEmpty = false := by
          cases hcase : client.describeGroups (some [g.autoScalingGroupName]) with
          | nil => exact absurd hcase hne
          | cons x xs => rfl
        simp [hk, hv2, hemp]
      · simp [beq_iff_eq, hv2]
    · simp [beq_iff_eq, hk]

theorem asg_status_total_iff_witness :
    exceptIsOk (get_auto_scaling_group_status (worldASGClient ⟨[], [webGroup]⟩)
        (csWith "status")) = true ↔
      ∀ g ∈ (worldASGClient ⟨[], [webGroup]⟩).describeGroups none,
        (∃ t ∈ g.tags, t.key = "Service" ∧ PyAtom.aStr t.value = PyAtom.aStr "web") →
        (worldASGClient ⟨[], [webGroup]⟩).describeGroups (some [g.autoScalingGroupName]) ≠ [] :=
  asg_status_total_iff (worldASGClient ⟨[], [webGroup]⟩) (csWith "status")
    (PyAtom.aStr "web") (by decide)
